import Mathlib

/-!
Shallow embedding of `src/gridd/main/message_handler.c` (OpenIO SDS gridd):
the reply-context lifecycle (clear / set_message / set_body / extra headers /
transmit), the handler registry (`message_handler_add`, `message_handler_add_v2`)
and the request context (`request_context_create`, `request_context_clear`).

External collaborators that live outside `src/` (the marshaller
`message_marshall_gba_and_clean`, the bounded socket writer `sock_to_write`,
the reply-template builder `metaXServer_reply_simple`, the address resolver)
are modelled as explicit function parameters or from the spec, as noted on
each definition.
-/

namespace Gridd

/-- Byte sequences (`guint8 *` buffers paired with their length). -/
abbrev Bytes := List Nat

/-- `#define MS_REPLY_TIMEOUT 1000` (message_handler.c line 30). -/
def MS_REPLY_TIMEOUT : Int := 1000

/-- The `header` sub-record of `struct reply_context_s`: a status `code` and an
optional owned message string (`msg` is a `gchar *`, NULL modelled as `none`). -/
structure ReplyHeader where
  code : Int
  msg : Option String
deriving DecidableEq

/-- The `body` sub-record of `struct reply_context_s` when a buffer is present:
the buffer, its size, and the `copy` flag deciding release-on-clean. A NULL
`body.buffer` is modelled by wrapping the whole record in `Option`. -/
structure ReplyBody where
  buffer : Bytes
  size : Nat
  copy : Bool
deriving DecidableEq

/-- `struct reply_context_s`: header, optional body, optional warning
(`GError *warning`, modelled as an optional message string) and the lazily
allocated `extra_headers` hash table (`none` = not yet allocated; the table is
modelled as an association list with unique keys, insertion order in front). -/
structure reply_context_s where
  header : ReplyHeader
  body : Option ReplyBody
  warning : Option String
  extra_headers : Option (List (String × Bytes))
deriving DecidableEq

/-- `reply_context_clear(ctx, all)` (lines 56-75): when `all` is set, the
warning is freed and reset and the extra-headers table is destroyed and reset;
in every case `REPLYCTX_CLEANHEADER` and `REPLYCTX_CLEANBODY` free and zero the
header and the body. -/
def reply_context_clear (ctx : reply_context_s) (all : Bool) : reply_context_s :=
  let ctx1 := if all then { ctx with warning := none, extra_headers := none } else ctx
  { ctx1 with header := ⟨0, none⟩, body := none }

/-- `reply_context_set_message(ctx, code, msg)` (lines 77-86): cleans the
header then stores the code and a duplicate of `msg` (NULL kept as NULL). -/
def reply_context_set_message (ctx : reply_context_s) (code : Int) (msg : Option String) :
    reply_context_s :=
  { ctx with header := ⟨code, msg⟩ }

/-- The `flags` argument of `reply_context_set_body`: the two bits
`REPLYCTX_DESTROY_ON_CLEAN` and `REPLYCTX_COPY`. Modelled from the spec: the
bit constants live in `message_handler.h`, outside `src/`; the spec calls them
the ownership mode (copy-and-own / take-ownership / borrow). -/
structure BodyFlags where
  destroy_on_clean : Bool
  copy : Bool
deriving DecidableEq

/-- `reply_context_set_body(ctx, body, bodySize, flags)` (lines 88-100): first
`REPLYCTX_CLEANBODY` releases and zeroes any current body, then, only when
`body` is non-NULL and `bodySize > 0`, the new buffer is stored (`g_memdup`
copy when the COPY bit is set), with `copy = DESTROY_ON_CLEAN | COPY`. -/
def reply_context_set_body (ctx : reply_context_s) (body : Option Bytes) (bodySize : Nat)
    (flags : BodyFlags) : reply_context_s :=
  let ctx1 := { ctx with body := none }
  match body with
  | some b =>
    if 0 < bodySize then
      { ctx1 with body := some ⟨if flags.copy then b.take bodySize else b, bodySize,
          flags.destroy_on_clean || flags.copy⟩ }
    else ctx1
  | none => ctx1

/-- `reply_context_add_bufheader_in_reply(ctx, k, v, vlen)` (lines 102-114):
no-op when `k`, `v` or `vlen` is missing/zero; otherwise lazily allocates the
hash table and inserts a copy of the key with the first `vlen` bytes of `v`,
replacing any entry already stored under that key (`g_hash_table_insert` with
`g_str_equal` keeps keys unique). -/
def reply_context_add_bufheader_in_reply (ctx : reply_context_s) (k : Option String)
    (v : Option Bytes) (vlen : Nat) : reply_context_s :=
  match k, v with
  | some k, some v =>
    if vlen = 0 then ctx
    else
      let ht := ctx.extra_headers.getD []
      let ht1 := (k, v.take vlen) :: ht.filter (fun kv => kv.1 != k)
      { ctx with extra_headers := some ht1 }
  | _, _ => ctx

/-- `strlen`/byte view of a C string. -/
def str_bytes (s : String) : Bytes := s.toList.map Char.toNat

/-- `reply_context_add_strheader_in_reply(ctx, k, v)` (lines 116-122): no-op on
missing key or value, otherwise delegates with `vlen = strlen(v)`. -/
def reply_context_add_strheader_in_reply (ctx : reply_context_s) (k : Option String)
    (v : Option String) : reply_context_s :=
  match k, v with
  | some k, some v =>
    reply_context_add_bufheader_in_reply ctx (some k) (some (str_bytes v)) (str_bytes v).length
  | _, _ => ctx

/-- `reply_context_add_header_in_reply(ctx, k, v)` (lines 124-130): no-op on
missing key or value (`GByteArray *` NULL), otherwise delegates with the
array's data and length. -/
def reply_context_add_header_in_reply (ctx : reply_context_s) (k : Option String)
    (v : Option Bytes) : reply_context_s :=
  match k, v with
  | some k, some v => reply_context_add_bufheader_in_reply ctx (some k) (some v) v.length
  | _, _ => ctx

/-- Lookup in the modelled extra-headers table (first entry wins, as in a
`GHashTable` with unique keys). -/
def ht_lookup (m : List (String × Bytes)) (k : String) : Option Bytes :=
  (m.find? (fun kv => kv.1 == k)).map (fun kv => kv.2)

/-- The outbound `MESSAGE` being assembled by `reply_context_reply`: the status
code and message set by the template builder, the named fields added by
`metautils_message_add_field`, and the optional body set by
`metautils_message_set_BODY` (buffer and size). -/
structure Message where
  status : Int
  message : String
  fields : List (String × Bytes)
  mbody : Option (Bytes × Nat)
deriving DecidableEq

/-- Modelled from the spec: `metaXServer_reply_simple` (metautils/metacomm,
outside `src/`) builds the outbound reply template from the bound request
context's inbound request, the status code and the message; only the code and
message matter to this core, so the template starts with no extra fields and
no body. -/
def metaXServer_reply_simple (code : Int) (msg : String) : Message :=
  { status := code, message := msg, fields := [], mbody := none }

/-- The message-assembly phase of `reply_context_reply` (lines 149-154):
`ptr_msg` falls back to the literal `"NOMSG"` when `ctx->header.msg` is NULL,
the template is built by `metaXServer_reply_simple`, every extra header with a
non-NULL, non-empty value is added as a field (`reply_ctx_header_adder`,
lines 132-142, skips empty values), and the body is attached when
`ctx->body.buffer` is non-NULL and `ctx->body.size > 0`. -/
def reply_build_answer (ctx : reply_context_s) : Message :=
  let ptr_msg := ctx.header.msg.getD "NOMSG"
  let answer0 := metaXServer_reply_simple ctx.header.code ptr_msg
  let hdrs := (ctx.extra_headers.getD []).filter (fun kv => kv.2 != [])
  let answer1 := { answer0 with fields := answer0.fields ++ hdrs }
  match ctx.body with
  | some b => if 0 < b.size then { answer1 with mbody := some (b.buffer, b.size) } else answer1
  | none => answer1

/-- `g_prefix_error(err, prefix)`: prefixes the message when an error is set,
does nothing when `*err` is NULL. -/
def g_prefix_error (e : Option String) (p : String) : Option String :=
  e.map (fun s => p ++ s)

/-- The clamp computed at line 159:
`_to = MAX(MS_REPLY_TIMEOUT, MIN(60000, default_to_operation))`. -/
def effective_timeout (default_to_operation : Int) : Int :=
  max MS_REPLY_TIMEOUT (min 60000 default_to_operation)

/-- Outcome of `reply_context_reply`: the `gint` return value, the `GError`
out-parameter after the call (caller passes `*err = NULL`), and how many times
the encoded buffer was released (`g_byte_array_unref`). -/
structure ReplyResult where
  ret : Int
  err : Option String
  released : Nat
deriving DecidableEq

/-- `reply_context_reply(ctx, err)` (lines 144-169). The two external
collaborators are parameters, modelled from the spec: `marshall` is
`message_marshall_gba_and_clean` (serialize to bytes, `none` on failure) and
`sock_write fd timeout bytes` is `sock_to_write` (returns the `gint` byte
count and the error it may set). The code: marshal the assembled answer; when
a buffer comes back, write it under the clamped timeout, treat the write as
done iff `sent > 0 && encoded->len == (guint)sent`, unref the buffer, and on
a not-done write prefix the error with `"Failed to reply: "` and return 0;
in every other path return 1. -/
def reply_context_reply (ctx : reply_context_s) (fd : Int) (default_to_operation : Int)
    (marshall : Message → Option Bytes)
    (sock_write : Int → Int → Bytes → Int × Option String) : ReplyResult :=
  match marshall (reply_build_answer ctx) with
  | some encoded =>
    let tmo := effective_timeout default_to_operation
    let res := sock_write fd tmo encoded
    if 0 < res.1 ∧ (encoded.length : Int) = res.1 then
      ⟨1, res.2, 1⟩
    else
      ⟨0, g_prefix_error res.2 "Failed to reply: ", 1⟩
  | none => ⟨1, none, 0⟩

variable {Req H1 H2 T : Type}

/-- Modelled from the spec: `SIZE_MSGHANDLERNAME`, the fixed size of the
bounded `name` field of `struct message_handler_s`; the constant itself lives
in `server_internals.h`, outside `src/`. Only its positivity matters here. -/
def SIZE_MSGHANDLERNAME : Nat := 256

/-- `struct message_handler_s`: bounded name, matcher predicate, and exactly
one of the two handler shapes populated (`handler` for the simple shape,
`handler_v2` for the tagged shape). `Req` is the inbound-request type; the two
handler function types are kept opaque as `H1` and `H2`. -/
structure message_handler_s (Req H1 H2 : Type) where
  name : String
  matcher : Req → Bool
  handler : Option H1
  handler_v2 : Option H2

/-- The process-wide registry state: the chain hanging off
`BEACON_MSGHANDLER.next` (front of the list = most recent registration) and
the lazily created `serv_tags` array (`none` = not yet allocated); tags are
kept opaque as `T`. -/
structure RegistryState (Req H1 H2 T : Type) where
  handlers : List (message_handler_s Req H1 H2)
  serv_tags : Option (List T)

/-- Outcome of a registration call: the `gint` return, the `GError`
out-parameter, and the registry state after the call. -/
structure AddResult (Req H1 H2 T : Type) where
  ret : Int
  err : Option String
  state : RegistryState Req H1 H2 T

/-- `service_tag_dup`: deep copy of an opaque tag (value semantics here). -/
def service_tag_dup (t : T) : T := t

/-- `message_handler_add(name, m, h, err)` (lines 171-194): on a missing name,
matcher or handler it sets `"Invalid parameter"` and returns 0 leaving the
registry alone; otherwise it allocates an entry with the truncated name
(`strncpy(..., SIZE_MSGHANDLERNAME-1)`), the matcher, the simple handler and
`handler_v2 = NULL`, prepends it (`mh->next = BEACON_MSGHANDLER.next;
BEACON_MSGHANDLER.next = mh`) and returns 1. -/
def message_handler_add (name : Option String) (m : Option (Req → Bool)) (h : Option H1)
    (st : RegistryState Req H1 H2 T) : AddResult Req H1 H2 T :=
  match name, m, h with
  | some name, some m, some h =>
    let mh : message_handler_s Req H1 H2 :=
      ⟨name.take (SIZE_MSGHANDLERNAME - 1), m, some h, none⟩
    ⟨1, none, ⟨mh :: st.handlers, st.serv_tags⟩⟩
  | _, _, _ => ⟨0, some "Invalid parameter", st⟩

/-- `message_handler_add_v2(name, m, h, tags, err)` (lines 196-230): on a
missing name, matcher or handler it sets `"Invalid parameters"` and returns 0
leaving the registry and tag collection alone; otherwise it prepends an entry
with `handler = NULL` and `handler_v2 = h`, lazily creates `serv_tags`, and
appends a `service_tag_dup` of every supplied tag, returning 1. -/
def message_handler_add_v2 (name : Option String) (m : Option (Req → Bool)) (h : Option H2)
    (tags : Option (List T)) (st : RegistryState Req H1 H2 T) : AddResult Req H1 H2 T :=
  match name, m, h with
  | some name, some m, some h =>
    let mh : message_handler_s Req H1 H2 :=
      ⟨name.take (SIZE_MSGHANDLERNAME - 1), m, none, some h⟩
    let base := st.serv_tags.getD []
    let tags1 :=
      match tags with
      | some ts => base ++ ts.map service_tag_dup
      | none => base
    ⟨1, none, ⟨mh :: st.handlers, some tags1⟩⟩
  | _, _, _ => ⟨0, some "Invalid parameters", st⟩

/-- Modelled from the spec: the dispatch scan lives outside `src/`; the spec
says the registry is scanned front-to-back and the first entry whose matcher
returns true is selected. -/
def message_handler_dispatch (handlers : List (message_handler_s Req H1 H2)) (req : Req) :
    Option (message_handler_s Req H1 H2) :=
  handlers.find? (fun e => e.matcher req)

/-- `addr_info_t`: an opaque structured address record; `g_malloc0` yields the
zero-filled record `zero_addr`. -/
structure addr_info_t where
  addr : Nat
  port : Nat
deriving DecidableEq

/-- The zero-filled address record left in place when resolution fails. -/
def zero_addr : addr_info_t := ⟨0, 0⟩

/-- `struct request_context_s`: socket handle, start time
(`gettimeofday(&tv_start)`), and the two owned address records (NULL pointers
modelled as `none`). -/
structure request_context_s where
  fd : Int
  tv_start : Nat
  local_addr : Option addr_info_t
  remote_addr : Option addr_info_t
deriving DecidableEq

/-- `request_context_create(fd, fd_peer)` (lines 261-289). The resolver calls
(`getpeername`/`getsockname` + `addrinfo_from_sockaddr`, outside `src/`) are
modelled from the spec as outcome parameters: `none` means resolution failed
and the freshly `g_malloc0`-ed record stays zero-filled. Both address records
are always allocated; the local one is copied from `fd_peer` when supplied,
otherwise resolved from the socket. -/
def request_context_create (fd : Int) (fd_peer : Option addr_info_t) (now : Nat)
    (peer_res : Option addr_info_t) (local_res : Option addr_info_t) : request_context_s :=
  let remote := peer_res.getD zero_addr
  let lokal :=
    match fd_peer with
    | some p => p
    | none => local_res.getD zero_addr
  ⟨fd, now, some lokal, some remote⟩

/-- `request_context_clear(request_info)` (lines 232-242): frees each non-NULL
address record and zeroes the whole structure. The second component counts the
address records released (`g_free` calls). -/
def request_context_clear (ri : request_context_s) : request_context_s × Nat :=
  let freed := (if ri.local_addr.isSome then 1 else 0) + (if ri.remote_addr.isSome then 1 else 0)
  (⟨0, 0, none, none⟩, freed)

/-! Concrete fixtures used by witnesses and counterexamples. -/

/-- A freshly zeroed reply context. -/
def ctx_empty : reply_context_s := ⟨⟨0, none⟩, none, none, none⟩

/-- A reply context with every field populated. -/
def ctx_full : reply_context_s :=
  ⟨⟨200, some "OK"⟩, some ⟨[1, 2], 2, true⟩, some "warn", some [("H", [7])]⟩

/-- An empty registry over concrete types. -/
def emptyRegistry : RegistryState Nat Nat Nat Nat := ⟨[], none⟩

/-- A marshaller that always yields the one-byte buffer `[7]`. -/
def marshall7 : Message → Option Bytes := fun _ => some [7]

/-- A marshaller that always fails (allocation failure). -/
def marshall_fail : Message → Option Bytes := fun _ => none

/-- A socket writer reporting one byte written and no error. -/
def writer_ok : Int → Int → Bytes → Int × Option String := fun _ _ _ => (1, none)

/-- A socket writer reporting zero bytes written and an error. -/
def writer_zero : Int → Int → Bytes → Int × Option String := fun _ _ _ => (0, some "EAGAIN")

/-- A matcher accepting every request, used by concrete witnesses. -/
def match_all : Nat → Bool := fun _ => true

/-! Helper lemmas. -/

/-- Entries surviving the remove-old-key filter never count for that key. -/
theorem countP_filter_ne_key (l : List (String × Bytes)) (k : String) :
    (l.filter (fun kv => kv.1 != k)).countP (fun kv => kv.1 == k) = 0 := by
  induction l with
  | nil => rfl
  | cons a t ih =>
    by_cases h : a.1 = k
    · simp [List.filter_cons, h, ih]
    · simp [List.filter_cons, List.countP_cons, h, ih]

/-- Shape of the extra-headers table after a successful buffer-header insert. -/
theorem add_bufheader_inserts (ctx : reply_context_s) (k : String) (v : Bytes) (hv : v ≠ []) :
    (reply_context_add_bufheader_in_reply ctx (some k) (some v) v.length).extra_headers =
      some ((k, v) :: (ctx.extra_headers.getD []).filter (fun kv => kv.1 != k)) := by
  have hlen : v.length ≠ 0 := by simpa using hv
  simp [reply_context_add_bufheader_in_reply, hlen, List.take_length]

/-! Theorems settling the claims. -/

/-- C4: the effective deadline used by transmit is the configured default
operation timeout clamped into [1000 ms, 60000 ms]; in particular configured
timeouts of 0, 500, 30000 and 120000 ms give 1000, 1000, 30000 and 60000 ms. -/
theorem effective_deadline_clamped :
    (∀ t : Int, effective_timeout t = if t < 1000 then 1000 else if 60000 < t then 60000 else t) ∧
    effective_timeout 0 = 1000 ∧ effective_timeout 500 = 1000 ∧
    effective_timeout 30000 = 30000 ∧ effective_timeout 120000 = 60000 := by
  refine ⟨fun t => ?_, by decide, by decide, by decide, by decide⟩
  simp only [effective_timeout, MS_REPLY_TIMEOUT]
  omega

/-- C6: transmit on a context whose message was never set (or was set to NULL)
builds the outbound reply with the literal placeholder "NOMSG" together with
the configured status code, and the message field is not empty. -/
theorem transmit_default_message (ctx : reply_context_s) (h : ctx.header.msg = none) :
    (reply_build_answer ctx).message = "NOMSG" ∧
    (reply_build_answer ctx).message ≠ "" ∧
    (reply_build_answer ctx).status = ctx.header.code := by
  have hm : (reply_build_answer ctx).message = "NOMSG" := by
    cases hb : ctx.body with
    | none => simp [reply_build_answer, metaXServer_reply_simple, h, hb]
    | some b =>
      by_cases hsz : 0 < b.size <;>
        simp [reply_build_answer, metaXServer_reply_simple, h, hb, hsz]
  have hcode : (reply_build_answer ctx).status = ctx.header.code := by
    cases hb : ctx.body with
    | none => simp [reply_build_answer, metaXServer_reply_simple, hb]
    | some b =>
      by_cases hsz : 0 < b.size <;>
        simp [reply_build_answer, metaXServer_reply_simple, hb, hsz]
  exact ⟨hm, by rw [hm]; decide, hcode⟩

/-- Witness for C6 at a concrete context with no message set. -/
theorem transmit_default_message_witness :
    ctx_empty.header.msg = none ∧
    ((reply_build_answer ctx_empty).message = "NOMSG" ∧
     (reply_build_answer ctx_empty).message ≠ "" ∧
     (reply_build_answer ctx_empty).status = ctx_empty.header.code) :=
  ⟨rfl, transmit_default_message ctx_empty rfl⟩

/-- C8: clear with full=false releases header and body state while leaving a
previously set warning and the extra-headers collection untouched; clear with
full=true additionally resets the warning to absent and destroys the
extra-headers collection back to its lazily-initializable empty state. -/
theorem clear_partial_vs_full (ctx : reply_context_s) (w : String)
    (hs : List (String × Bytes)) (hw : ctx.warning = some w)
    (hh : ctx.extra_headers = some hs) :
    (reply_context_clear ctx false).warning = some w ∧
    (reply_context_clear ctx false).extra_headers = some hs ∧
    (reply_context_clear ctx false).header = ⟨0, none⟩ ∧
    (reply_context_clear ctx false).body = none ∧
    reply_context_clear ctx true = ⟨⟨0, none⟩, none, none, none⟩ := by
  simp [reply_context_clear, hw, hh]

/-- Witness for C8 at a concrete fully populated context. -/
theorem clear_partial_vs_full_witness :
    ctx_full.warning = some "warn" ∧ ctx_full.extra_headers = some [("H", [7])] ∧
    ((reply_context_clear ctx_full false).warning = some "warn" ∧
     (reply_context_clear ctx_full false).extra_headers = some [("H", [7])] ∧
     (reply_context_clear ctx_full false).header = ⟨0, none⟩ ∧
     (reply_context_clear ctx_full false).body = none ∧
     reply_context_clear ctx_full true = ⟨⟨0, none⟩, none, none, none⟩) :=
  ⟨rfl, rfl, clear_partial_vs_full ctx_full "warn" [("H", [7])] rfl rfl⟩

/-- C9 counterexample: setBody with a NULL buffer on a context holding a body
is not a no-op — the previously stored body is released and cleared. -/
theorem set_body_null_not_noop :
    reply_context_set_body ctx_full none 5 ⟨true, true⟩ ≠ ctx_full := by decide

/-- C9 (amended): setBody with a NULL buffer or a zero size stores nothing
new, but always first releases any previously set body: the result is the
original context with its body cleared, every other field unchanged. -/
theorem set_body_empty_clears_previous (ctx : reply_context_s) (body : Option Bytes)
    (bodySize : Nat) (flags : BodyFlags) (h : body = none ∨ bodySize = 0) :
    reply_context_set_body ctx body bodySize flags = { ctx with body := none } := by
  rcases h with rfl | rfl
  · rfl
  · cases body with
    | none => rfl
    | some b => simp [reply_context_set_body]

/-- Witness for C9 (amended) at a concrete context holding a body. -/
theorem set_body_empty_clears_previous_witness :
    ((none : Option Bytes) = none ∨ (5 : Nat) = 0) ∧
    reply_context_set_body ctx_full none 5 ⟨true, true⟩ = { ctx_full with body := none } :=
  ⟨Or.inl rfl, set_body_empty_clears_previous ctx_full none 5 ⟨true, true⟩ (Or.inl rfl)⟩

/-- C10: a created request context always carries both address records
(zero-filled when resolution fails), the given socket handle and the recorded
start time; clearing it releases exactly the two address records and zeroes
the structure. -/
theorem request_context_create_clear_ok (fd : Int) (fd_peer : Option addr_info_t) (now : Nat)
    (peer_res local_res : Option addr_info_t) :
    ((request_context_create fd fd_peer now peer_res local_res).local_addr).isSome = true ∧
    ((request_context_create fd fd_peer now peer_res local_res).remote_addr).isSome = true ∧
    (request_context_create fd fd_peer now peer_res local_res).fd = fd ∧
    (request_context_create fd fd_peer now peer_res local_res).tv_start = now ∧
    (peer_res = none →
      (request_context_create fd fd_peer now peer_res local_res).remote_addr = some zero_addr) ∧
    (fd_peer = none → local_res = none →
      (request_context_create fd fd_peer now peer_res local_res).local_addr = some zero_addr) ∧
    request_context_clear (request_context_create fd fd_peer now peer_res local_res) =
      (⟨0, 0, none, none⟩, 2) := by
  cases fd_peer <;> cases peer_res <;> cases local_res <;>
    simp [request_context_create, request_context_clear]

/-- Witness for C10 at a concrete socket with every resolution failing. -/
theorem request_context_create_clear_witness :
    ((request_context_create 4 none 9 none none).local_addr).isSome = true ∧
    ((request_context_create 4 none 9 none none).remote_addr).isSome = true ∧
    (request_context_create 4 none 9 none none).fd = 4 ∧
    (request_context_create 4 none 9 none none).tv_start = 9 ∧
    ((none : Option addr_info_t) = none →
      (request_context_create 4 none 9 none none).remote_addr = some zero_addr) ∧
    ((none : Option addr_info_t) = none → (none : Option addr_info_t) = none →
      (request_context_create 4 none 9 none none).local_addr = some zero_addr) ∧
    request_context_clear (request_context_create 4 none 9 none none) =
      (⟨0, 0, none, none⟩, 2) :=
  request_context_create_clear_ok 4 none 9 none none

/-- C1: once the reply serialized to a buffer, transmit returns the success
indicator iff the transport write reports a strictly positive byte count
exactly equal to the buffer length; on any other write outcome it returns the
failure indicator with the transport error prefixed by "Failed to reply: ",
and in both outcomes the serialized buffer is released exactly once. -/
theorem transmit_success_iff_exact_write (ctx : reply_context_s) (fd dto : Int)
    (marshall : Message → Option Bytes)
    (w : Int → Int → Bytes → Int × Option String) (encoded : Bytes)
    (hm : marshall (reply_build_answer ctx) = some encoded) :
    (reply_context_reply ctx fd dto marshall w).released = 1 ∧
    ((reply_context_reply ctx fd dto marshall w).ret = 1 ↔
      (0 < (w fd (effective_timeout dto) encoded).1 ∧
       (encoded.length : Int) = (w fd (effective_timeout dto) encoded).1)) ∧
    (¬ (0 < (w fd (effective_timeout dto) encoded).1 ∧
        (encoded.length : Int) = (w fd (effective_timeout dto) encoded).1) →
      (reply_context_reply ctx fd dto marshall w).ret = 0 ∧
      (reply_context_reply ctx fd dto marshall w).err =
        Option.map (fun s => "Failed to reply: " ++ s) (w fd (effective_timeout dto) encoded).2) := by
  unfold reply_context_reply
  rw [hm]
  by_cases hdone : 0 < (w fd (effective_timeout dto) encoded).1 ∧
      (encoded.length : Int) = (w fd (effective_timeout dto) encoded).1
  · simp [hdone]
  · simp [hdone, g_prefix_error]

/-- Witness for C1 at a concrete context, marshaller, and exact one-byte
write. -/
theorem transmit_success_iff_exact_write_witness :
    marshall7 (reply_build_answer ctx_empty) = some [7] ∧
    ((reply_context_reply ctx_empty 3 0 marshall7 writer_ok).released = 1 ∧
     ((reply_context_reply ctx_empty 3 0 marshall7 writer_ok).ret = 1 ↔
       (0 < (writer_ok 3 (effective_timeout 0) [7]).1 ∧
        (([7] : Bytes).length : Int) = (writer_ok 3 (effective_timeout 0) [7]).1)) ∧
     (¬ (0 < (writer_ok 3 (effective_timeout 0) [7]).1 ∧
         (([7] : Bytes).length : Int) = (writer_ok 3 (effective_timeout 0) [7]).1) →
       (reply_context_reply ctx_empty 3 0 marshall7 writer_ok).ret = 0 ∧
       (reply_context_reply ctx_empty 3 0 marshall7 writer_ok).err =
         Option.map (fun s => "Failed to reply: " ++ s)
           (writer_ok 3 (effective_timeout 0) [7]).2)) :=
  ⟨rfl, transmit_success_iff_exact_write ctx_empty 3 0 marshall7 writer_ok [7] rfl⟩

/-- C2 counterexample: with a marshaller that yields no byte sequence,
transmit returns the success indicator 1 and records no error, not the
failure indicator the claim requires. -/
theorem transmit_marshall_failure_not_propagated :
    (reply_context_reply ctx_empty 3 0 marshall_fail writer_zero).ret = 1 ∧
    (reply_context_reply ctx_empty 3 0 marshall_fail writer_zero).err = none :=
  ⟨rfl, rfl⟩

/-- C2 (amended): when the marshalling collaborator fails to serialize the
outbound message (yields no byte sequence), transmit skips the write entirely
and returns the success indicator with no error recorded — the failure is not
propagated to the caller. -/
theorem transmit_marshall_failure_silent (ctx : reply_context_s) (fd dto : Int)
    (marshall : Message → Option Bytes) (w : Int → Int → Bytes → Int × Option String)
    (hm : marshall (reply_build_answer ctx) = none) :
    reply_context_reply ctx fd dto marshall w = ⟨1, none, 0⟩ := by
  unfold reply_context_reply
  rw [hm]

/-- Witness for C2 (amended) at a concrete context and failing marshaller. -/
theorem transmit_marshall_failure_silent_witness :
    marshall_fail (reply_build_answer ctx_full) = none ∧
    reply_context_reply ctx_full 3 0 marshall_fail writer_ok = ⟨1, none, 0⟩ :=
  ⟨rfl, transmit_marshall_failure_silent ctx_full 3 0 marshall_fail writer_ok rfl⟩

/-- C3: each successful registration — simple via `message_handler_add` or
tagged via `message_handler_add_v2` — prepends its entry to the registry list,
and dispatch scans front-to-back selecting the first entry whose matcher is
true; hence when handlers A then B are registered and both match an input, the
most recently registered handler B is selected, whichever shape B has (for a
simple B the selected entry carries B in its `handler` field, for a tagged B
in its `handler_v2` field). -/
theorem dispatch_last_registered_wins {Req H1 H2 T : Type}
    (st : RegistryState Req H1 H2 T) (na nb : String) (ma mb : Req → Bool)
    (ha hb : H1) (hv : H2) (tags : Option (List T)) (req : Req)
    (hma : ma req = true) (hmb : mb req = true) :
    let r1 := message_handler_add (some na) (some ma) (some ha) st
    let r2 := message_handler_add (some nb) (some mb) (some hb) r1.state
    let r3 := message_handler_add_v2 (some nb) (some mb) (some hv) tags r1.state
    r1.ret = 1 ∧ r2.ret = 1 ∧ r3.ret = 1 ∧
    r1.state.handlers =
      ⟨na.take (SIZE_MSGHANDLERNAME - 1), ma, some ha, none⟩ :: st.handlers ∧
    r2.state.handlers =
      ⟨nb.take (SIZE_MSGHANDLERNAME - 1), mb, some hb, none⟩ :: r1.state.handlers ∧
    r3.state.handlers =
      ⟨nb.take (SIZE_MSGHANDLERNAME - 1), mb, none, some hv⟩ :: r1.state.handlers ∧
    (message_handler_dispatch r2.state.handlers req).map (fun e => e.handler) =
      some (some hb) ∧
    (message_handler_dispatch r3.state.handlers req).map (fun e => e.handler_v2) =
      some (some hv) := by
  refine ⟨rfl, rfl, rfl, rfl, rfl, rfl, ?_, ?_⟩ <;>
    simp [message_handler_add, message_handler_add_v2, message_handler_dispatch, hmb]

/-- Witness for C3: an always-matching simple handler A, then an
always-matching B registered once as simple and once as tagged; dispatch picks
B in both shapes. -/
theorem dispatch_last_registered_wins_witness :
    match_all 5 = true ∧
    (let r1 := message_handler_add (some "A") (some match_all) (some 1) emptyRegistry
     let r2 := message_handler_add (some "B") (some match_all) (some 2) r1.state
     let r3 := message_handler_add_v2 (some "B") (some match_all) (some 7) (some [3]) r1.state
     r1.ret = 1 ∧ r2.ret = 1 ∧ r3.ret = 1 ∧
     r1.state.handlers =
       ⟨"A".take (SIZE_MSGHANDLERNAME - 1), match_all, some 1, none⟩ ::
         emptyRegistry.handlers ∧
     r2.state.handlers =
       ⟨"B".take (SIZE_MSGHANDLERNAME - 1), match_all, some 2, none⟩ :: r1.state.handlers ∧
     r3.state.handlers =
       ⟨"B".take (SIZE_MSGHANDLERNAME - 1), match_all, none, some 7⟩ :: r1.state.handlers ∧
     (message_handler_dispatch r2.state.handlers 5).map (fun e => e.handler) =
       some (some 2) ∧
     (message_handler_dispatch r3.state.handlers 5).map (fun e => e.handler_v2) =
       some (some 7)) :=
  ⟨rfl, dispatch_last_registered_wins emptyRegistry "A" "B" match_all match_all 1 2 7
    (some [3]) 5 rfl rfl⟩

/-- C5: registration — simple or tagged — with an absent name, matcher or
handler fails with the invalid-argument error and the failure indicator, and
leaves the registry state (entry list, and for tagged registration the tag
collection) exactly as it was. -/
theorem registration_invalid_argument {Req H1 H2 T : Type}
    (name : Option String) (m : Option (Req → Bool)) (h1 : Option H1) (h2 : Option H2)
    (tags : Option (List T)) (st : RegistryState Req H1 H2 T) :
    ((name = none ∨ m = none ∨ h1 = none) →
      message_handler_add name m h1 st = ⟨0, some "Invalid parameter", st⟩) ∧
    ((name = none ∨ m = none ∨ h2 = none) →
      message_handler_add_v2 name m h2 tags st = ⟨0, some "Invalid parameters", st⟩) := by
  constructor
  · rintro (rfl | rfl | rfl)
    · rfl
    · cases name <;> rfl
    · cases name <;> cases m <;> rfl
  · rintro (rfl | rfl | rfl)
    · rfl
    · cases name <;> rfl
    · cases name <;> cases m <;> rfl

/-- Witness for C5: both registration shapes called with every argument
missing leave an empty registry untouched. -/
theorem registration_invalid_argument_witness :
    message_handler_add none none (none : Option Nat) emptyRegistry =
      ⟨0, some "Invalid parameter", emptyRegistry⟩ ∧
    message_handler_add_v2 none none (none : Option Nat) none emptyRegistry =
      ⟨0, some "Invalid parameters", emptyRegistry⟩ :=
  ⟨(registration_invalid_argument none none none none none emptyRegistry).1 (Or.inl rfl),
   (registration_invalid_argument none none none none none emptyRegistry).2 (Or.inl rfl)⟩

/-- C7: adding a header twice under the same key leaves exactly one entry for
that key in the extra-headers table, holding (a copy of) the second value; and
any add with a missing key, missing value, or zero-length value stores
nothing. -/
theorem header_overwrite_and_reject (ctx : reply_context_s) (k : String)
    (v1 v2 v : Bytes) (s : String) (hv2 : v2 ≠ []) :
    ((reply_context_add_header_in_reply (reply_context_add_header_in_reply ctx (some k)
        (some v1)) (some k) (some v2)).extra_headers.getD []).countP
      (fun kv => kv.1 == k) = 1 ∧
    ht_lookup ((reply_context_add_header_in_reply (reply_context_add_header_in_reply ctx
        (some k) (some v1)) (some k) (some v2)).extra_headers.getD []) k = some v2 ∧
    reply_context_add_header_in_reply ctx none (some v) = ctx ∧
    reply_context_add_header_in_reply ctx (some k) none = ctx ∧
    reply_context_add_header_in_reply ctx (some k) (some []) = ctx ∧
    reply_context_add_strheader_in_reply ctx none (some s) = ctx ∧
    reply_context_add_strheader_in_reply ctx (some k) none = ctx ∧
    reply_context_add_strheader_in_reply ctx (some k) (some "") = ctx := by
  have hstep : (reply_context_add_header_in_reply (reply_context_add_header_in_reply ctx
      (some k) (some v1)) (some k) (some v2)).extra_headers =
      some ((k, v2) ::
        ((reply_context_add_header_in_reply ctx (some k) (some v1)).extra_headers.getD
          []).filter (fun kv => kv.1 != k)) :=
    add_bufheader_inserts _ k v2 hv2
  refine ⟨?_, ?_, rfl, rfl, rfl, rfl, rfl, rfl⟩
  · rw [hstep]
    simp [List.countP_cons, countP_filter_ne_key]
  · rw [hstep]
    simp [ht_lookup]

/-- Witness for C7 at a concrete context, key and values. -/
theorem header_overwrite_and_reject_witness :
    ([2] : Bytes) ≠ [] ∧
    (((reply_context_add_header_in_reply (reply_context_add_header_in_reply ctx_empty
        (some "K") (some [1])) (some "K") (some [2])).extra_headers.getD []).countP
      (fun kv => kv.1 == "K") = 1 ∧
    ht_lookup ((reply_context_add_header_in_reply (reply_context_add_header_in_reply ctx_empty
        (some "K") (some [1])) (some "K") (some [2])).extra_headers.getD []) "K" =
      some [2] ∧
    reply_context_add_header_in_reply ctx_empty none (some [9]) = ctx_empty ∧
    reply_context_add_header_in_reply ctx_empty (some "K") none = ctx_empty ∧
    reply_context_add_header_in_reply ctx_empty (some "K") (some []) = ctx_empty ∧
    reply_context_add_strheader_in_reply ctx_empty none (some "s") = ctx_empty ∧
    reply_context_add_strheader_in_reply ctx_empty (some "K") none = ctx_empty ∧
    reply_context_add_strheader_in_reply ctx_empty (some "K") (some "") = ctx_empty) :=
  ⟨by decide,
   header_overwrite_and_reject ctx_empty "K" [1] [2] [9] "s" (by decide)⟩

end Gridd
